import Mathlib

/-!
Verification of the session/MFA orchestration layer of the Saahitt guest-manager
web client. The definitions below are shallow embeddings of the TypeScript
source: `SessionManager` (secure session utility), `InputValidator.checkRateLimit`
(client-side rate limiter), the `Auth` page's `handleSignIn` / MFA handlers, and
the `MFASimpleVerification` / `MFASetup` / `MFAOptionalSetup` components.
Asynchronous provider calls (Supabase auth) are modelled by passing each call's
result as an explicit parameter; `localStorage` cells are modelled as explicit
state. Times are milliseconds as `Int` (JavaScript `Date.now()`).
-/

/-! ## SessionManager (src/unnamed/part_002) -/

/-- One authenticated browser session, mirroring the `SessionData` interface. -/
structure SessionData where
  userId : String
  email : String
  lastActivity : Int
  sessionStart : Int
  isValid : Bool
deriving DecidableEq

/-- A logged security event: the event type together with the optional
`reason` metadata passed to `logSecurityEvent`. -/
structure LogEvent where
  type : String
  reason : Option String
deriving DecidableEq

/-- The mutable static state of the `SessionManager` class: the session cell,
the `warningShown` flag, and the list of security events logged so far. -/
structure ManagerState where
  sessionData : Option SessionData
  warningShown : Bool
  log : List LogEvent
deriving DecidableEq

/-- `SESSION_WARNING_TIME = 10 * 60 * 1000` (10 minutes). -/
def SESSION_WARNING_TIME : Int := 10 * 60 * 1000

/-- `MAX_IDLE_TIME = 60 * 60 * 1000` (1 hour). -/
def MAX_IDLE_TIME : Int := 60 * 60 * 1000

/-- The inline absolute cap `8 * 60 * 60 * 1000` (8 hours) used in
`isSessionValid`. -/
def MAX_DURATION : Int := 8 * 60 * 60 * 1000

/-- `SessionManager.invalidateSession(reason)`: logs a `SESSION_EXPIRED` event
carrying the reason (when a session exists), then clears the session cell and
the warning flag. -/
def invalidateSession (st : ManagerState) (reason : String) : ManagerState :=
  let log :=
    match st.sessionData with
    | some _ => st.log ++ [⟨"SESSION_EXPIRED", some reason⟩]
    | none => st.log
  { sessionData := none, warningShown := false, log := log }

/-- `SessionManager.isSessionValid()`: idle timeout is checked first with a
strict comparison, then the absolute 8-hour cap, both invalidating the
session; otherwise the stored `isValid` flag is returned. Returns the result
together with the updated manager state. -/
def isSessionValid (st : ManagerState) (now : Int) : Bool × ManagerState :=
  match st.sessionData with
  | none => (false, st)
  | some d =>
    let timeSinceActivity := now - d.lastActivity
    let timeSinceStart := now - d.sessionStart
    if MAX_IDLE_TIME < timeSinceActivity then
      (false, invalidateSession st "IDLE_TIMEOUT")
    else if MAX_DURATION < timeSinceStart then
      (false, invalidateSession st "MAX_DURATION")
    else
      (d.isValid, st)

/-- `SessionManager.getTimeUntilExpiry()`: clamped remaining idle time. -/
def getTimeUntilExpiry (st : ManagerState) (now : Int) : Int :=
  match st.sessionData with
  | none => 0
  | some d => max 0 (MAX_IDLE_TIME - (now - d.lastActivity))

/-- The sanitized record returned by `SessionManager.getSessionInfo()`. -/
structure SessionInfo where
  isValid : Bool
  timeUntilExpiry : Int
  shouldShowWarning : Bool
deriving DecidableEq

/-- `SessionManager.getSessionInfo()`: evaluates validity (possibly
invalidating and clearing the session as a side effect), then computes the
warning flag from the post-evaluation state and consumes it. -/
def getSessionInfo (st : ManagerState) (now : Int) : SessionInfo × ManagerState :=
  let r := isSessionValid st now
  let st1 := r.2
  let t := getTimeUntilExpiry st1 now
  let warn := decide (t ≤ SESSION_WARNING_TIME) && !st1.warningShown
  let st2 := if warn then { st1 with warningShown := true } else st1
  (⟨r.1, t, warn⟩, st2)

/-- `SessionManager.updateActivity()`: refreshes the activity timestamp and
re-arms the warning flag when a session exists. -/
def updateActivity (st : ManagerState) (now : Int) : ManagerState :=
  match st.sessionData with
  | some d => { st with sessionData := some { d with lastActivity := now }, warningShown := false }
  | none => st

/-! ## InputValidator.checkRateLimit (src/unnamed/part_003) -/

/-- The `localStorage` cell `rate_limit_<key>` for one action key.
`readable = false` models `getItem`/`JSON.parse` throwing (storage
unavailable or corrupt); `writable = false` models `setItem` throwing. -/
structure RateLimitStore where
  attempts : List Int
  readable : Bool
  writable : Bool
deriving DecidableEq

/-- The `validAttempts` filter inside `checkRateLimit`: attempts strictly
younger than the window. -/
def validAttempts (stored : List Int) (now windowMs : Int) : List Int :=
  stored.filter (fun t => decide (now - t < windowMs))

/-- `InputValidator.checkRateLimit(key, limit, windowMs)` for the cell of one
key: any storage exception is caught and the request is allowed; otherwise the
attempt list is pruned to the window, the limit is enforced, and on the allowed
path the current attempt is recorded. -/
def checkRateLimit (store : RateLimitStore) (now : Int) (limit : Nat) (windowMs : Int) :
    Bool × RateLimitStore :=
  if !store.readable then
    (true, store)
  else
    let valid := validAttempts store.attempts now windowMs
    if limit ≤ valid.length then
      (false, store)
    else if !store.writable then
      (true, store)
    else
      (true, { store with attempts := valid ++ [now] })

/-! ## Shared auth data types -/

/-- The authenticated subject stored by `setAuthenticatedUser`. -/
structure User where
  id : String
  email : String
deriving DecidableEq

/-- An MFA factor as returned by `supabase.auth.mfa.listFactors()`. -/
structure Factor where
  id : String
  factorType : String
  status : String
deriving DecidableEq

/-- Substring test modelling JavaScript `String.prototype.includes`. -/
def strIncludes (s pat : String) : Bool := decide (pat.data <:+: s.data)

/-! ## Auth page state (src/src/pages/Auth.tsx, second component) -/

/-- `currentView` of the `Auth` component. -/
inductive View
  | auth
  | forgot
  | reset
  | mfa
  | mfaOptionalView
deriving DecidableEq

/-- `mfaStep` of the `Auth` component. -/
inductive MfaStep
  | login
  | mfaSetup
  | mfaVerify
  | mfaOptional
deriving DecidableEq

/-- The React state of the `Auth` component that the sign-in/MFA flow reads
and writes, together with the rate-limiter cell for the `signin` key. -/
structure AuthState where
  currentView : View
  mfaStep : MfaStep
  authenticatedUser : Option User
  email : String
  password : String
  rateStore : RateLimitStore
deriving DecidableEq

/-- Result of `supabase.auth.signInWithPassword`: an error message, a user, or
a response with no user (the "should never be reached" case). -/
inductive PwResult
  | err (msg : String)
  | okUser (u : User)
  | okNone
deriving DecidableEq

/-- The external inputs consumed by one run of `handleSignIn`: the outcome of
the email-format check, the password call, the `listFactors` call, and the two
durable `localStorage` preferences read mid-flow. -/
structure SignInEnv where
  emailValid : Bool
  pw : PwResult
  listFactors : Except String (List Factor)
  mfaPrompted : Bool
  mfaEnabled : Bool

/-- Everything one run of `handleSignIn` does: the updated component state,
whether the password / listFactors provider calls were made, whether
`navigate(redirectPath)` (the grant) was executed, and any destructive toast. -/
structure SignInOutcome where
  state : AuthState
  pwCalled : Bool
  factorsCalled : Bool
  navigated : Bool
  toastError : Option String
deriving DecidableEq

/-- The special-cased provider message in `handleSignIn`. -/
def emailNotConfirmedMsg : String := "Email not confirmed"

/-- `handleSignIn` (Auth.tsx lines 675-803): rate-limit gate with key
`signin`, limit 5, window 300000 ms; email-format gate; password call;
verified-factor check (skipped entirely when `listFactors` errors); then the
preference branch choosing the optional prompt, mandatory setup, or direct
navigation to the dashboard. -/
def handleSignIn (st : AuthState) (env : SignInEnv) (now : Int) : SignInOutcome :=
  let r := checkRateLimit st.rateStore now 5 300000
  let st1 := { st with rateStore := r.2 }
  if !r.1 then
    ⟨st1, false, false, false, some "Please wait before trying again."⟩
  else if !env.emailValid then
    ⟨st1, false, false, false, some "Please enter a valid email address."⟩
  else
    match env.pw with
    | .err msg =>
      if strIncludes msg emailNotConfirmedMsg then
        ⟨st1, true, false, false,
          some "Please check your email and click the verification link before signing in."⟩
      else
        ⟨st1, true, false, false, some msg⟩
    | .okNone => ⟨st1, true, false, false, some "Please try again."⟩
    | .okUser u =>
      let st2 := { st1 with authenticatedUser := some u }
      let hasVerified : Bool :=
        match env.listFactors with
        | .ok fs => !(fs.filter (fun f => f.status == "verified")).isEmpty
        | .error _ => false
      if hasVerified then
        ⟨{ st2 with currentView := .mfa }, true, true, false, none⟩
      else if !env.mfaPrompted then
        ⟨{ st2 with mfaStep := .mfaOptional }, true, true, false, none⟩
      else if env.mfaEnabled then
        ⟨{ st2 with mfaStep := .mfaSetup }, true, true, false, none⟩
      else
        ⟨st2, true, true, true, none⟩

/-- `handleMFASetupComplete` (Auth.tsx lines 822-829): after the setup
component reports completion, move to the `mfa_verify` step (no navigation). -/
def handleMFASetupComplete (st : AuthState) : AuthState :=
  { st with mfaStep := .mfaVerify }

/-- Effects of a back handler: the updated state and whether
`supabase.auth.signOut()` was called. -/
structure BackEffects where
  state : AuthState
  providerSignOutCalled : Bool
deriving DecidableEq

/-- `handleBackToLogin` (Auth.tsx lines 839-846): reset the MFA step, drop the
authenticated subject, sign out at the provider, and clear the password. -/
def handleBackToLogin (st : AuthState) : BackEffects :=
  { state := { st with mfaStep := .login, authenticatedUser := none, password := "" },
    providerSignOutCalled := true }

/-- The `onBack` of the `currentView === "mfa"` branch (Auth.tsx lines
866-871): return to the auth view, drop the authenticated subject, reset the
MFA step; no provider sign-out and the password field is untouched. -/
def mfaViewOnBack (st : AuthState) : BackEffects :=
  { state := { st with currentView := .auth, authenticatedUser := none, mfaStep := .login },
    providerSignOutCalled := false }

/-! ## MFASimpleVerification component
(src/src/components/auth/MFASimpleVerification.tsx, first component) -/

/-- React state of `MFASimpleVerification`. -/
structure VerCompState where
  loading : Bool
  verificationCode : String
  factors : List Factor
  currentChallenge : Option String
  isVerifying : Bool
  challengeInitialized : Bool
deriving DecidableEq

/-- The fresh component state produced by the `useState` initializers. -/
def initialVerComp : VerCompState :=
  { loading := false, verificationCode := "", factors := [], currentChallenge := none,
    isVerifying := false, challengeInitialized := false }

/-- External inputs of `initializeMFAChallenge`: the `listFactors` call and the
`supabase.auth.mfa.challenge` call. -/
structure ChallengeEnv where
  listFactors : Except String (List Factor)
  createChallenge : Except String String

/-- Effects of one run of `initializeMFAChallenge`: updated component state,
whether `onBack` was invoked (return to the login form), which factor a
challenge was requested against, and any error toast. -/
structure InitChallengeOutcome where
  comp : VerCompState
  backCalled : Bool
  challengedFactor : Option Factor
  toastError : Option String

/-- `initializeMFAChallenge` (MFASimpleVerification.tsx lines 48-110): no-op
once initialized; lists factors and keeps the verified ones; with none it
toasts and calls `onBack`; otherwise it requests a challenge against the first
verified factor, storing the challenge id on success; any thrown error is
caught and surfaced as a toast, leaving the component on the verification
screen. -/
def initMFAChallenge (c : VerCompState) (env : ChallengeEnv) : InitChallengeOutcome :=
  if c.challengeInitialized then
    ⟨c, false, none, none⟩
  else
    match env.listFactors with
    | .error msg => ⟨{ c with loading := false }, false, none, some msg⟩
    | .ok fs =>
      let verified := fs.filter (fun f => f.status == "verified")
      let c1 := { c with factors := verified }
      match verified.head? with
      | none => ⟨{ c1 with loading := false }, true, none, some "Please set up MFA first."⟩
      | some factor =>
        match env.createChallenge with
        | .error msg => ⟨{ c1 with loading := false }, false, some factor, some msg⟩
        | .ok chId =>
          ⟨{ c1 with
              currentChallenge := some chId
              challengeInitialized := true
              loading := false },
            false, some factor, none⟩

/-- Effects of one full run of `verifyTOTP`: updated component state, whether
the provider `verify` network call was made, whether `onSuccess` (the grant)
was invoked, and any toast. -/
structure VerifyOutcome where
  comp : VerCompState
  networkCalled : Bool
  granted : Bool
  toastError : Option String

/-- `verifyTOTP` (MFASimpleVerification.tsx lines 116-173) run to completion
with the provider's answer supplied: a non-6-digit code or a missing challenge
aborts before the network; the `loading || isVerifying` guard suppresses
re-entry; otherwise the provider verify call is made, granting on success and
clearing the entered code on failure. -/
def verifyTOTP (c : VerCompState) (verifyResult : Except String Unit) : VerifyOutcome :=
  if c.verificationCode.length != 6 then
    ⟨c, false, false, some "Please enter a 6-digit verification code"⟩
  else
    match c.currentChallenge with
    | none => ⟨c, false, false, some "Please refresh and try again."⟩
    | some _ =>
      if c.loading || c.isVerifying then
        ⟨c, false, false, none⟩
      else
        match verifyResult with
        | .ok _ => ⟨{ c with loading := false, isVerifying := false }, true, true, none⟩
        | .error msg =>
          ⟨{ c with loading := false, isVerifying := false, verificationCode := "" },
            true, false, some msg⟩

/-- The synchronous prefix of `verifyTOTP`, up to and including issuing the
provider verify call: the guards run, and on the issuing path the
`loading` / `isVerifying` flags are set before control yields at the `await`.
Returns the component state as left while the call is in flight, and whether a
network call was issued. -/
def verifyTOTPBegin (c : VerCompState) : VerCompState × Bool :=
  if c.verificationCode.length != 6 then
    (c, false)
  else
    match c.currentChallenge with
    | none => (c, false)
    | some _ =>
      if c.loading || c.isVerifying then
        (c, false)
      else
        ({ c with loading := true, isVerifying := true }, true)

/-- The continuation of `verifyTOTP` after the provider answers: grant on
success, clear the code on failure, and release both guard flags (the
`finally` block). Returns the new state and whether `onSuccess` was invoked. -/
def verifyTOTPSettle (c : VerCompState) (ok : Bool) : VerCompState × Bool :=
  if ok then
    ({ c with loading := false, isVerifying := false }, true)
  else
    ({ c with loading := false, isVerifying := false, verificationCode := "" }, false)

/-! ## MFASetup component
(src/src/components/auth/MFASimpleVerification.tsx, second component) -/

/-- `step` of the `MFASetup` component. -/
inductive SetupStep
  | setup
  | verify
deriving DecidableEq

/-- The enroll response `data` of `supabase.auth.mfa.enroll`. -/
structure TotpData where
  id : String
  secret : String
  uri : String
deriving DecidableEq

/-- External inputs of one run of `setupTOTP`: whether `getSession` returned a
user, the `listFactors` call, and the `enroll` call. -/
structure SetupEnv where
  hasSession : Bool
  listFactors : Except String (List Factor)
  enroll : Except String TotpData

/-- Effects of one run of `setupTOTP`: resulting wizard step, the factor under
enrollment, whether `onComplete` was invoked, the unverified factor ids that
were reclaimed via `unenroll`, and any error toast. -/
structure SetupOutcome where
  step : SetupStep
  currentFactor : Option String
  completed : Bool
  unenrolledIds : List String
  toastError : Option String

/-- The toast chosen by `setupTOTP` for an `enroll` error, by message
classification. -/
def enrollErrorToast (msg : String) : String :=
  if strIncludes msg "MFA enrollment is disabled" || strIncludes msg "MFA is not enabled" then
    "MFA needs to be enabled in your Supabase project settings first."
  else if strIncludes msg "upgrade" || strIncludes msg "plan" then
    "MFA requires a Supabase Pro plan or higher."
  else
    "Failed to set up MFA: " ++ msg

/-- `setupTOTP` (MFASimpleVerification.tsx lines 354-479): requires a live
session; a failing `listFactors` is terminal with an error toast; an already
verified TOTP factor short-circuits to `onComplete`; otherwise stale
unverified TOTP factors are reclaimed and a new factor is enrolled — enroll
errors are terminal with a classified toast, success moves to the verify
step holding the new factor. -/
def setupTOTP (prevStep : SetupStep) (prevFactor : Option String) (env : SetupEnv) :
    SetupOutcome :=
  if !env.hasSession then
    ⟨prevStep, prevFactor, false, [], some "Please log in again to set up MFA."⟩
  else
    match env.listFactors with
    | .error _ =>
      ⟨prevStep, prevFactor, false, [],
        some "Unable to check existing MFA factors. Please try again."⟩
    | .ok fs =>
      let verifiedTOTP := fs.filter (fun f => f.factorType == "totp" && f.status == "verified")
      if !verifiedTOTP.isEmpty then
        ⟨prevStep, prevFactor, true, [], none⟩
      else
        let unverifiedIds :=
          (fs.filter (fun f => f.factorType == "totp" && f.status == "unverified")).map (·.id)
        match env.enroll with
        | .error msg =>
          ⟨prevStep, prevFactor, false, unverifiedIds, some (enrollErrorToast msg)⟩
        | .ok d => ⟨SetupStep.verify, some d.id, false, unverifiedIds, none⟩

/-- External inputs of `MFASetup.verifyTOTP`: the challenge-creation call and
the code-verification call. -/
structure SetupVerifyEnv where
  challenge : Except String String
  verify : Except String Unit

/-- `MFASetup.verifyTOTP` (MFASimpleVerification.tsx lines 512-552): aborts
silently without a factor under enrollment or with an empty code; creates a
challenge and verifies the entered code against it; on success `onComplete`
is invoked, on any thrown error a toast is shown. Returns whether
`onComplete` was invoked and the error toast. -/
def setupVerifyTOTP (currentFactor : Option String) (code : String) (env : SetupVerifyEnv) :
    Bool × Option String :=
  match currentFactor with
  | none => (false, none)
  | some _ =>
    if code == "" then
      (false, none)
    else
      match env.challenge with
      | .error msg => (false, some msg)
      | .ok _ =>
        match env.verify with
        | .error msg => (false, some msg)
        | .ok _ => (true, none)

/-- Effects of one mandatory-setup verification round at the `Auth` page
level: the updated page state, whether setup verification completed, and
whether `navigate` (the grant) was executed. -/
structure SetupRoundEffects where
  state : AuthState
  completed : Bool
  navigated : Bool
deriving DecidableEq

/-- The wiring of `MFASetup` inside the `Auth` page for the mandatory
`mfa_setup` step (Auth.tsx lines 960-982): the component's `onComplete` is
`handleMFASetupComplete`, so an accepted setup verification code moves the
page to the `mfa_verify` step; nothing in this round calls `navigate`. -/
def mfaSetupRound (st : AuthState) (currentFactor : Option String) (code : String)
    (env : SetupVerifyEnv) : SetupRoundEffects :=
  let r := setupVerifyTOTP currentFactor code env
  if r.1 then
    ⟨handleMFASetupComplete st, true, false⟩
  else
    ⟨st, false, false⟩

/-! ## MFAOptionalSetup component
(src/src/components/auth/MFASimpleVerification.tsx, third component) -/

/-- The two durable `localStorage` preferences `mfa_enabled` and
`mfa_setup_prompted` (each cell holds whether it equals the string "true"). -/
structure MFAPrefs where
  mfaEnabled : Bool
  mfaPrompted : Bool
deriving DecidableEq

/-- `handleEnableMFA` (MFASimpleVerification.tsx lines 873-889): stores
`mfa_enabled = "true"` and `mfa_setup_prompted = "true"`. -/
def handleEnableMFA (_p : MFAPrefs) : MFAPrefs :=
  { mfaEnabled := true, mfaPrompted := true }

/-- `handleSkipMFA` (MFASimpleVerification.tsx lines 891-907): stores
`mfa_enabled = "false"` and `mfa_setup_prompted = "true"`. -/
def handleSkipMFA (_p : MFAPrefs) : MFAPrefs :=
  { mfaEnabled := false, mfaPrompted := true }

/-! ## Helper lemmas -/

/-- The head of a filtered list satisfies the filter predicate. -/
theorem headFilterSat {α : Type} (p : α → Bool) (l : List α) (a : α)
    (h : (l.filter p).head? = some a) : p a = true := by
  have hm : a ∈ l.filter p := by
    cases hl : l.filter p with
    | nil => rw [hl] at h; cases h
    | cons x xs =>
      rw [hl] at h
      simp only [List.head?] at h
      cases h
      exact List.mem_cons_self _ _
  exact (List.mem_filter.mp hm).2

/-- `checkRateLimit` on a healthy store with the window count exhausted:
rejected, store untouched. -/
theorem checkRateLimit_exhausted (store : RateLimitStore) (now : Int) (limit : Nat)
    (windowMs : Int) (hr : store.readable = true)
    (hn : limit ≤ (validAttempts store.attempts now windowMs).length) :
    checkRateLimit store now limit windowMs = (false, store) := by
  simp [checkRateLimit, hr, hn]

/-! ## C2 -/

/-- C2, claim as stated is false: with a live session whose last activity was
exactly `MAX_IDLE_TIME` (60 min) ago, the claim predicts `Expired`
(`now - lastActivityAt ≥ idleThreshold`), but the evaluation still reports the
session as valid because the source compares strictly (`>`). -/
theorem sessionEvalBoundaryCounterexample :
    (getSessionInfo ⟨some ⟨"u1", "u1@example.com", 0, 0, true⟩, false, []⟩ 3600000).1.isValid
      = true := by decide

/-- C2 (amended): for a live session (`isValid = true`), `getSessionInfo`
reports invalid iff `now - lastActivityAt > MAX_IDLE_TIME` or
`now - sessionStart > MAX_DURATION` (strict comparisons), and reports the
warning flag iff either an expiry fired (expiry clears the session and the
consumed-warning flag, so the warning is reported alongside it) or no expiry
fired, the warning is unconsumed, and the remaining idle time
`MAX_IDLE_TIME - (now - lastActivityAt)` is at most `SESSION_WARNING_TIME`. -/
theorem sessionEvalCharacterization (d : SessionData) (w : Bool) (lg : List LogEvent)
    (now : Int) (hv : d.isValid = true) :
    ((getSessionInfo ⟨some d, w, lg⟩ now).1.isValid = false ↔
      (MAX_IDLE_TIME < now - d.lastActivity ∨ MAX_DURATION < now - d.sessionStart)) ∧
    ((getSessionInfo ⟨some d, w, lg⟩ now).1.shouldShowWarning = true ↔
      ((MAX_IDLE_TIME < now - d.lastActivity ∨ MAX_DURATION < now - d.sessionStart) ∨
        (¬(MAX_IDLE_TIME < now - d.lastActivity) ∧ ¬(MAX_DURATION < now - d.sessionStart) ∧
          w = false ∧ MAX_IDLE_TIME - (now - d.lastActivity) ≤ SESSION_WARNING_TIME))) := by
  by_cases h1 : MAX_IDLE_TIME < now - d.lastActivity
  · simp [getSessionInfo, isSessionValid, getTimeUntilExpiry, invalidateSession, h1,
      SESSION_WARNING_TIME]
  · by_cases h2 : MAX_DURATION < now - d.sessionStart
    · simp [getSessionInfo, isSessionValid, getTimeUntilExpiry, invalidateSession, h1, h2,
        SESSION_WARNING_TIME]
    · simp only [getSessionInfo, isSessionValid, getTimeUntilExpiry, if_neg h1, if_neg h2]
      constructor
      · simp [hv, h1, h2]
      · simp only [hv, h1, h2, Bool.and_eq_true, Bool.not_eq_true', decide_eq_true_eq,
          false_or, false_and, not_false_iff, true_and]
        constructor
        · rintro ⟨ht, hw⟩
          exact ⟨hw, by omega⟩
        · rintro ⟨hw, ht⟩
          exact ⟨by omega, hw⟩

/-- C2 witness: a live session 55 minutes idle with an unconsumed warning flag
is reported as valid with the warning shown. -/
theorem sessionEvalCharacterizationWitness :
    (getSessionInfo ⟨some ⟨"u1", "u1@example.com", 0, 0, true⟩, false, []⟩ 3300000).1.isValid
        ≠ false ∧
    (getSessionInfo ⟨some ⟨"u1", "u1@example.com", 0, 0, true⟩, false, []⟩
        3300000).1.shouldShowWarning = true := by
  have h := sessionEvalCharacterization ⟨"u1", "u1@example.com", 0, 0, true⟩ false [] 3300000 rfl
  constructor
  · intro hc
    have := h.1.mp hc
    revert this
    decide
  · exact h.2.mpr (by right; refine ⟨by decide, by decide, rfl, by decide⟩)

/-! ## C3 -/

/-- C3, claim as stated is false: at `now = 28800001` a session started at 0
with last activity at 0 trips both the idle threshold and the absolute
threshold, yet the logged invalidation reason is `IDLE_TIMEOUT`, not the
absolute-timeout reason `MAX_DURATION` the claim predicts. -/
theorem tieBreakCounterexample :
    (isSessionValid ⟨some ⟨"u1", "u1@example.com", 0, 0, true⟩, false, []⟩ 28800001).2.log
        = [⟨"SESSION_EXPIRED", some "IDLE_TIMEOUT"⟩] ∧
    (isSessionValid ⟨some ⟨"u1", "u1@example.com", 0, 0, true⟩, false, []⟩ 28800001).2.log
        ≠ [⟨"SESSION_EXPIRED", some "MAX_DURATION"⟩] := by
  constructor
  · rfl
  · decide

/-- C3 (amended): when both thresholds would fire in the same evaluation, the
idle timeout wins — it is checked first, so the session is invalidated with
reason `IDLE_TIMEOUT`. -/
theorem tieBreakIdleWins (d : SessionData) (w : Bool) (lg : List LogEvent) (now : Int)
    (h1 : MAX_IDLE_TIME < now - d.lastActivity)
    (h2 : MAX_DURATION < now - d.sessionStart) :
    isSessionValid ⟨some d, w, lg⟩ now =
      (false, ⟨none, false, lg ++ [⟨"SESSION_EXPIRED", some "IDLE_TIMEOUT"⟩]⟩) := by
  simp [isSessionValid, invalidateSession, h1, h2]

/-- C3 witness: both thresholds exceeded at a concrete instant; the evaluation
invalidates with the idle-timeout reason. -/
theorem tieBreakIdleWinsWitness :
    isSessionValid ⟨some ⟨"u2", "u2@example.com", 0, 0, true⟩, true, []⟩ 30000000 =
      (false, ⟨none, false, [⟨"SESSION_EXPIRED", some "IDLE_TIMEOUT"⟩]⟩) :=
  tieBreakIdleWins ⟨"u2", "u2@example.com", 0, 0, true⟩ true [] 30000000
    (by decide) (by decide)

/-! ## C10 -/

/-- C10: the rate limiter fails open. If reading the stored attempt record
throws (storage unavailable or corrupt), `checkRateLimit` returns `true` and
the attempt is allowed regardless of the recorded history; if the record is
readable but writing the updated history throws, the check still returns
`true` on the non-exhausted path (the only path that writes). -/
theorem rateLimiterFailsOpen (store : RateLimitStore) (now : Int) (limit : Nat)
    (windowMs : Int) :
    (store.readable = false → checkRateLimit store now limit windowMs = (true, store)) ∧
    (store.readable = true → store.writable = false →
      (validAttempts store.attempts now windowMs).length < limit →
      checkRateLimit store now limit windowMs = (true, store)) := by
  constructor
  · intro hr
    simp [checkRateLimit, hr]
  · intro hr hw hn
    simp [checkRateLimit, hr, hw, Nat.not_le_of_lt hn]

/-- C10 witness: with seven attempts recorded inside the window but unreadable
storage, a check with limit 3 still allows the attempt. -/
theorem rateLimiterFailsOpenWitness :
    checkRateLimit ⟨[0, 1, 2, 3, 4, 5, 6], false, true⟩ 10 3 300000 =
      (true, ⟨[0, 1, 2, 3, 4, 5, 6], false, true⟩) :=
  (rateLimiterFailsOpen ⟨[0, 1, 2, 3, 4, 5, 6], false, true⟩ 10 3 300000).1 rfl

/-! ## C4 -/

/-- C4, claim as stated is false: the sign-in flow passes `limit = 5` (not 3)
to the rate limiter, so with 3 attempts already recorded inside the 5-minute
window a 4th credential submission is still allowed — the rate check returns
`true` and the password call to the identity provider is made. -/
theorem rateLimitThreeCounterexample :
    (handleSignIn ⟨View.auth, MfaStep.login, none, "a@b.co", "pw123456",
        ⟨[0, 1, 2], true, true⟩⟩
      ⟨true, .okUser ⟨"uid1", "a@b.co"⟩, .ok [], true, false⟩ 3).pwCalled = true ∧
    (checkRateLimit ⟨[0, 1, 2], true, true⟩ 3 5 300000).1 = true := by
  constructor
  · rfl
  · rfl

/-- C4 (amended): the sign-in action key uses `maxAttempts = 5` within the
5-minute window. Once 5 attempts are recorded inside the window, a further
credential submission is rejected locally: `checkRateLimit` returns `false`,
no provider call is made, the state (including view and MFA step) is
unchanged, and a wait-and-retry error is surfaced. -/
theorem rateLimitSigninRejects (st : AuthState) (env : SignInEnv) (now : Int)
    (hr : st.rateStore.readable = true)
    (hn : 5 ≤ (validAttempts st.rateStore.attempts now 300000).length) :
    handleSignIn st env now =
      ⟨st, false, false, false, some "Please wait before trying again."⟩ := by
  have hc := checkRateLimit_exhausted st.rateStore now 5 300000 hr hn
  simp [handleSignIn, hc]

/-- C4 witness: with 5 recorded attempts in the window, a 6th submission is
rejected without any provider call and the flow stays in the login form. -/
theorem rateLimitSigninRejectsWitness :
    handleSignIn ⟨View.auth, MfaStep.login, none, "a@b.co", "pw123456",
        ⟨[0, 1, 2, 3, 4], true, true⟩⟩
      ⟨true, .okUser ⟨"uid1", "a@b.co"⟩, .ok [], true, false⟩ 5 =
      ⟨⟨View.auth, MfaStep.login, none, "a@b.co", "pw123456", ⟨[0, 1, 2, 3, 4], true, true⟩⟩,
        false, false, false, some "Please wait before trying again."⟩ :=
  rateLimitSigninRejects
    ⟨View.auth, MfaStep.login, none, "a@b.co", "pw123456", ⟨[0, 1, 2, 3, 4], true, true⟩⟩
    ⟨true, .okUser ⟨"uid1", "a@b.co"⟩, .ok [], true, false⟩ 5 rfl (by decide)

/-! ## C5 -/

/-- C5: completing the optional-MFA prompt — by either choice — stores
`mfa_setup_prompted = true`; replaying a choice is idempotent; and a sign-in
run that starts from the login form with `mfa_setup_prompted = true` never
lands on the optional prompt step again. -/
theorem promptedOnceInvariant (p : MFAPrefs) (st : AuthState) (env : SignInEnv) (now : Int)
    (hstep : st.mfaStep = MfaStep.login) (hp : env.mfaPrompted = true) :
    (handleEnableMFA p).mfaPrompted = true ∧
    (handleSkipMFA p).mfaPrompted = true ∧
    handleEnableMFA (handleEnableMFA p) = handleEnableMFA p ∧
    handleSkipMFA (handleSkipMFA p) = handleSkipMFA p ∧
    (handleSignIn st env now).state.mfaStep ≠ MfaStep.mfaOptional := by
  refine ⟨rfl, rfl, rfl, rfl, ?_⟩
  obtain ⟨ev, pw, lf, mp, me⟩ := env
  simp only at hp
  subst hp
  simp only [handleSignIn]
  split
  · simp [hstep]
  · split
    · simp [hstep]
    · match pw with
      | .err msg =>
        simp only []
        split <;> simp [hstep]
      | .okNone => simp [hstep]
      | .okUser u =>
        simp only []
        split
        · simp [hstep]
        · split
          · simp_all
          · split <;> simp [hstep]

/-- C5 witness: skipping marks the preference, the replay is idempotent, and a
subsequent sign-in with the preference set does not re-show the optional
prompt. -/
theorem promptedOnceInvariantWitness :
    (handleSkipMFA ⟨false, false⟩).mfaPrompted = true ∧
    (handleSignIn ⟨View.auth, MfaStep.login, none, "a@b.co", "pw123456", ⟨[], true, true⟩⟩
        ⟨true, .okUser ⟨"uid1", "a@b.co"⟩, .ok [], true, false⟩ 0).state.mfaStep
      ≠ MfaStep.mfaOptional := by
  have h := promptedOnceInvariant ⟨false, false⟩
    ⟨View.auth, MfaStep.login, none, "a@b.co", "pw123456", ⟨[], true, true⟩⟩
    ⟨true, .okUser ⟨"uid1", "a@b.co"⟩, .ok [], true, false⟩ 0 rfl rfl
  exact ⟨h.2.1, h.2.2.2.2⟩

/-! ## C6 -/

/-- C6, claim as stated is false: after the provider accepts the 6-digit setup
verification code, the orchestrator does not transition to Granted — it moves
to the `mfa_verify` challenge step (and performs no navigation), demanding an
additional challenge/verify round. -/
theorem setupCompleteCounterexample :
    mfaSetupRound ⟨View.auth, MfaStep.mfaSetup, some ⟨"uid1", "a@b.co"⟩, "a@b.co", "pw123456",
        ⟨[], true, true⟩⟩ (some "factor1") "123456" ⟨.ok "ch1", .ok ()⟩ =
      ⟨⟨View.auth, MfaStep.mfaVerify, some ⟨"uid1", "a@b.co"⟩, "a@b.co", "pw123456",
          ⟨[], true, true⟩⟩, true, false⟩ := by
  rfl

/-- C6 (amended): whenever the mandatory-setup verification succeeds, the
orchestrator moves to the `mfa_verify` challenge step rather than granting:
an additional challenge/verify round is required before access is granted. -/
theorem setupCompleteGoesToChallenge (st : AuthState) (cf : Option String) (code : String)
    (env : SetupVerifyEnv) (h : (setupVerifyTOTP cf code env).1 = true) :
    (mfaSetupRound st cf code env).state.mfaStep = MfaStep.mfaVerify ∧
    (mfaSetupRound st cf code env).navigated = false ∧
    (mfaSetupRound st cf code env).completed = true := by
  simp [mfaSetupRound, handleMFASetupComplete, h]

/-- C6 witness: a concrete successful setup verification lands on the
challenge step without navigating. -/
theorem setupCompleteGoesToChallengeWitness :
    (mfaSetupRound ⟨View.auth, MfaStep.mfaSetup, some ⟨"uid1", "a@b.co"⟩, "a@b.co",
          "pw123456", ⟨[], true, true⟩⟩ (some "factor1") "123456"
        ⟨.ok "ch1", .ok ()⟩).state.mfaStep = MfaStep.mfaVerify :=
  (setupCompleteGoesToChallenge ⟨View.auth, MfaStep.mfaSetup, some ⟨"uid1", "a@b.co"⟩,
      "a@b.co", "pw123456", ⟨[], true, true⟩⟩ (some "factor1") "123456"
    ⟨.ok "ch1", .ok ()⟩ rfl).1

/-! ## C7 -/

/-- C7, claim as stated is false: the back action of the MFA-challenge view
entered right after password sign-in (`currentView === "mfa"`) neither calls
the provider sign-out nor clears the password. -/
theorem backFromChallengeCounterexample :
    (mfaViewOnBack ⟨View.mfa, MfaStep.login, some ⟨"uid1", "a@b.co"⟩, "a@b.co", "pw123456",
        ⟨[], true, true⟩⟩).providerSignOutCalled = false ∧
    (mfaViewOnBack ⟨View.mfa, MfaStep.login, some ⟨"uid1", "a@b.co"⟩, "a@b.co", "pw123456",
        ⟨[], true, true⟩⟩).state.password = "pw123456" := by
  exact ⟨rfl, rfl⟩

/-- C7 (amended): `handleBackToLogin` — the back handler wired to the
mandatory `mfa_setup` step and to the embedded `mfa_verify` step — signs the
subject out at the provider, returns to the login step, drops the
authenticated subject and clears the password; the back handler of the
standalone challenge view (`currentView = mfa`) also returns to the login
form and drops the subject, but performs no provider sign-out and leaves the
password untouched. -/
theorem backHandlersBehaviour (st : AuthState) :
    (handleBackToLogin st).providerSignOutCalled = true ∧
    (handleBackToLogin st).state.mfaStep = MfaStep.login ∧
    (handleBackToLogin st).state.authenticatedUser = none ∧
    (handleBackToLogin st).state.password = "" ∧
    (mfaViewOnBack st).providerSignOutCalled = false ∧
    (mfaViewOnBack st).state.currentView = View.auth ∧
    (mfaViewOnBack st).state.mfaStep = MfaStep.login ∧
    (mfaViewOnBack st).state.authenticatedUser = none ∧
    (mfaViewOnBack st).state.password = st.password := by
  exact ⟨rfl, rfl, rfl, rfl, rfl, rfl, rfl, rfl, rfl⟩

/-! ## C1 -/

/-- C1, claim as stated is false in its fallback clause: when the challenge
creation fails for a subject with a verified factor, the component surfaces
the error and stays on the MFA verification screen (`onBack` is not invoked,
no challenge is stored, nothing is granted) instead of falling back to the
login form. -/
theorem challengeFailureCounterexample :
    (initMFAChallenge initialVerComp
        ⟨.ok [⟨"factor1", "totp", "verified"⟩], .error "Challenge creation failed"⟩).backCalled
      = false ∧
    (initMFAChallenge initialVerComp
        ⟨.ok [⟨"factor1", "totp", "verified"⟩], .error "Challenge creation failed"⟩).toastError
      = some "Challenge creation failed" ∧
    (initMFAChallenge initialVerComp
        ⟨.ok [⟨"factor1", "totp", "verified"⟩],
          .error "Challenge creation failed"⟩).comp.currentChallenge = none := by
  exact ⟨rfl, rfl, rfl⟩

/-- C1 (amended): a sign-in whose password call succeeds for a subject with at
least one `verified` factor moves to the MFA-challenge view without
navigating; the challenge component challenges the first verified factor
(necessarily of `verified` status) and stores the challenge id on success; on
challenge-creation failure it surfaces the error and stays on the
verification screen (no fallback to the login form, no grant); and the
verification step grants only when the provider accepted the code. -/
theorem verifiedFactorForcesChallenge :
    (∀ (st : AuthState) (env : SignInEnv) (now : Int) (u : User) (fs : List Factor),
      (checkRateLimit st.rateStore now 5 300000).1 = true →
      env.emailValid = true → env.pw = .okUser u → env.listFactors = .ok fs →
      (fs.filter (fun f => f.status == "verified")).isEmpty = false →
      (handleSignIn st env now).state.currentView = View.mfa ∧
      (handleSignIn st env now).navigated = false) ∧
    (∀ (c : VerCompState) (cenv : ChallengeEnv) (fs : List Factor) (f : Factor) (ch : String),
      c.challengeInitialized = false → cenv.listFactors = .ok fs →
      (fs.filter (fun g => g.status == "verified")).head? = some f →
      cenv.createChallenge = .ok ch →
      (initMFAChallenge c cenv).challengedFactor = some f ∧ f.status = "verified" ∧
      (initMFAChallenge c cenv).comp.currentChallenge = some ch) ∧
    (∀ (c : VerCompState) (cenv : ChallengeEnv) (fs : List Factor) (f : Factor) (m : String),
      c.challengeInitialized = false → cenv.listFactors = .ok fs →
      (fs.filter (fun g => g.status == "verified")).head? = some f →
      cenv.createChallenge = .error m →
      (initMFAChallenge c cenv).backCalled = false ∧
      (initMFAChallenge c cenv).toastError = some m ∧
      (initMFAChallenge c cenv).comp.challengeInitialized = false ∧
      (initMFAChallenge c cenv).comp.currentChallenge = c.currentChallenge) ∧
    (∀ (c : VerCompState) (vr : Except String Unit),
      (verifyTOTP c vr).granted = true → vr = .ok ()) := by
  refine ⟨?_, ?_, ?_, ?_⟩
  · intro st env now u fs hrl hev hpw hlf hne
    obtain ⟨ev, pw, lf, mp, me⟩ := env
    simp only at hev hpw hlf
    subst hev hpw hlf
    simp [handleSignIn, hrl, hne]
  · intro c cenv fs f ch hinit hlf hhead hch
    obtain ⟨lf, cc⟩ := cenv
    simp only at hlf hch
    subst hlf hch
    have hstat : (f.status == "verified") = true := headFilterSat _ fs f hhead
    refine ⟨?_, by simpa using hstat, ?_⟩ <;>
      simp [initMFAChallenge, hinit, hhead]
  · intro c cenv fs f m hinit hlf hhead hch
    obtain ⟨lf, cc⟩ := cenv
    simp only at hlf hch
    subst hlf hch
    refine ⟨?_, ?_, ?_, ?_⟩ <;> simp [initMFAChallenge, hinit, hhead]
  · intro c vr hg
    unfold verifyTOTP at hg
    split at hg
    · simp at hg
    · split at hg
      · simp at hg
      · split at hg
        · simp at hg
        · match vr with
          | .ok () => rfl
          | .error m => simp at hg

/-- C1 witness: a concrete subject with one verified TOTP factor is routed to
the MFA view without a grant, and the challenge is created against that
factor. -/
theorem verifiedFactorForcesChallengeWitness :
    ((handleSignIn ⟨View.auth, MfaStep.login, none, "a@b.co", "pw123456", ⟨[], true, true⟩⟩
        ⟨true, .okUser ⟨"uid1", "a@b.co"⟩, .ok [⟨"factor1", "totp", "verified"⟩], true, false⟩
        0).state.currentView = View.mfa ∧
      (handleSignIn ⟨View.auth, MfaStep.login, none, "a@b.co", "pw123456", ⟨[], true, true⟩⟩
        ⟨true, .okUser ⟨"uid1", "a@b.co"⟩, .ok [⟨"factor1", "totp", "verified"⟩], true, false⟩
        0).navigated = false) ∧
    (initMFAChallenge initialVerComp
        ⟨.ok [⟨"factor1", "totp", "verified"⟩], .ok "ch1"⟩).comp.currentChallenge
      = some "ch1" := by
  constructor
  · exact verifiedFactorForcesChallenge.1
      ⟨View.auth, MfaStep.login, none, "a@b.co", "pw123456", ⟨[], true, true⟩⟩
      ⟨true, .okUser ⟨"uid1", "a@b.co"⟩, .ok [⟨"factor1", "totp", "verified"⟩], true, false⟩
      0 ⟨"uid1", "a@b.co"⟩ [⟨"factor1", "totp", "verified"⟩] rfl rfl rfl rfl (by decide)
  · exact (verifiedFactorForcesChallenge.2.1 initialVerComp
      ⟨.ok [⟨"factor1", "totp", "verified"⟩], .ok "ch1"⟩
      [⟨"factor1", "totp", "verified"⟩] ⟨"factor1", "totp", "verified"⟩ "ch1"
      rfl rfl (by decide) rfl).2.2

/-! ## C8 -/

/-- C8, claim as stated is false: with the factor-listing call failing and the
stored preferences `mfa_setup_prompted = true`, `mfa_enabled = false`, the
sign-in attempt is not terminal and no error is surfaced — the flow navigates
to the dashboard, granting access without MFA despite the provider failure. -/
theorem listFactorsFailureCounterexample :
    (handleSignIn ⟨View.auth, MfaStep.login, none, "a@b.co", "pw123456", ⟨[], true, true⟩⟩
        ⟨true, .okUser ⟨"uid1", "a@b.co"⟩, .error "listFactors failed", true, false⟩
        0).navigated = true ∧
    (handleSignIn ⟨View.auth, MfaStep.login, none, "a@b.co", "pw123456", ⟨[], true, true⟩⟩
        ⟨true, .okUser ⟨"uid1", "a@b.co"⟩, .error "listFactors failed", true, false⟩
        0).toastError = none := by
  exact ⟨rfl, rfl⟩

/-- C8 (amended): a failing password call is terminal for the attempt with the
error surfaced verbatim (outside the special-cased email-not-confirmed
message) and no state change; a failing TOTP enrollment during MFA setup is
terminal with a classified error surfaced and no completion; but a failing
factor-listing call during sign-in is silently swallowed — the flow proceeds
on the stored preferences and, with `prompted = true` and `enabled = false`,
grants access without MFA and without surfacing any error. -/
theorem providerFailureHandling :
    (∀ (st : AuthState) (env : SignInEnv) (now : Int) (msg : String),
      (checkRateLimit st.rateStore now 5 300000).1 = true →
      env.emailValid = true → env.pw = .err msg →
      strIncludes msg emailNotConfirmedMsg = false →
      (handleSignIn st env now).navigated = false ∧
      (handleSignIn st env now).toastError = some msg ∧
      (handleSignIn st env now).state.mfaStep = st.mfaStep ∧
      (handleSignIn st env now).state.currentView = st.currentView) ∧
    (∀ (ps : SetupStep) (pf : Option String) (env : SetupEnv) (msg : String)
        (fs : List Factor),
      env.hasSession = true → env.listFactors = .ok fs →
      (fs.filter (fun f => f.factorType == "totp" && f.status == "verified")).isEmpty = true →
      env.enroll = .error msg →
      (setupTOTP ps pf env).completed = false ∧
      (setupTOTP ps pf env).toastError = some (enrollErrorToast msg) ∧
      (setupTOTP ps pf env).step = ps) ∧
    (∀ (st : AuthState) (env : SignInEnv) (now : Int) (u : User) (e : String),
      (checkRateLimit st.rateStore now 5 300000).1 = true →
      env.emailValid = true → env.pw = .okUser u → env.listFactors = .error e →
      env.mfaPrompted = true → env.mfaEnabled = false →
      (handleSignIn st env now).navigated = true ∧
      (handleSignIn st env now).toastError = none) := by
  refine ⟨?_, ?_, ?_⟩
  · intro st env now msg hrl hev hpw hinc
    obtain ⟨ev, pw, lf, mp, me⟩ := env
    simp only at hev hpw
    subst hev hpw
    simp [handleSignIn, hrl, hinc]
  · intro ps pf env msg fs hs hlf hemp hen
    obtain ⟨s, lf, en⟩ := env
    simp only at hs hlf hen
    subst hs hlf hen
    simp [setupTOTP, hemp]
  · intro st env now u e hrl hev hpw hlf hmp hme
    obtain ⟨ev, pw, lf, mp, me⟩ := env
    simp only at hev hpw hlf hmp hme
    subst hev hpw hlf hmp hme
    simp [handleSignIn, hrl]

/-- C8 witness: a rejected password with a generic provider message surfaces
that message verbatim without navigation, and a failing enrollment call in
setup completes nothing and surfaces a classified error. -/
theorem providerFailureHandlingWitness :
    ((handleSignIn ⟨View.auth, MfaStep.login, none, "a@b.co", "pw123456", ⟨[], true, true⟩⟩
        ⟨true, .err "Invalid login credentials", .ok [], true, false⟩ 0).navigated = false ∧
      (handleSignIn ⟨View.auth, MfaStep.login, none, "a@b.co", "pw123456", ⟨[], true, true⟩⟩
        ⟨true, .err "Invalid login credentials", .ok [], true, false⟩ 0).toastError
        = some "Invalid login credentials") ∧
    (setupTOTP SetupStep.setup none
        ⟨true, .ok [], .error "MFA is not enabled for this project"⟩).completed = false := by
  constructor
  · have h := providerFailureHandling.1
      ⟨View.auth, MfaStep.login, none, "a@b.co", "pw123456", ⟨[], true, true⟩⟩
      ⟨true, .err "Invalid login credentials", .ok [], true, false⟩ 0
      "Invalid login credentials" rfl rfl rfl (by decide)
    exact ⟨h.1, h.2.1⟩
  · exact (providerFailureHandling.2.1 SetupStep.setup none
      ⟨true, .ok [], .error "MFA is not enabled for this project"⟩
      "MFA is not enabled for this project" [] rfl rfl (by decide) rfl).1

/-! ## C9 -/

/-- C9: the `loading`/`isVerifying` guard of `verifyTOTP` suppresses a second
submission while a verification is in flight, before it reaches the network:
after any first submission, an immediately following submission issues no
provider call and leaves the component state unchanged, so two concurrent
submissions of the same code for the same challenge issue at most one
provider verify call — and hence can produce at most one grant. -/
theorem concurrentVerifySuppressed (c : VerCompState) :
    (verifyTOTPBegin (verifyTOTPBegin c).1).2 = false ∧
    (verifyTOTPBegin (verifyTOTPBegin c).1).1 = (verifyTOTPBegin c).1 ∧
    (if (verifyTOTPBegin c).2 then 1 else 0) +
      (if (verifyTOTPBegin (verifyTOTPBegin c).1).2 then 1 else 0) ≤ 1 := by
  obtain ⟨ld, code, fs, ch, iv, ci⟩ := c
  unfold verifyTOTPBegin
  by_cases hlen : (code.length != 6) = true
  · simp [hlen]
  · simp only [hlen]
    match ch with
    | none => simp
    | some chId =>
      by_cases hg : (ld || iv) = true
      · simp [hg, hlen]
      · simp [hg, hlen]
